import Mathlib

/-!
Verification development for `modem.py`, a program that drives a cellular USB
modem over a serial AT-command channel and reconciles the host network
configuration with the DHCP lease the modem reports.

The Python source is shallowly embedded: pure string processing becomes Lean
functions over `List Char` / `String`; Python exceptions become the `error`
side of `Except PyErr`; the serial port becomes an explicit oracle state
(`Serial`) holding a script of read results and a log of write/read events;
the OS-mutation helpers (the "network reconciler") are modelled at call level
by an event list, since their bodies are external `subprocess` invocations.
-/

set_option autoImplicit false

namespace Modem

/-- Python exception kinds that the embedded code can raise.
`nameError` stands for `UnboundLocalError`/`NameError` (use of an unassigned
local), `valueError` for `int()` parse failures, `structError` for
`struct.error` from `struct.pack("<L", ...)`, `indexError` for out-of-range
list indexing, `attributeError` for attribute access on `None`. -/
inductive PyErr where
  | valueError
  | structError
  | indexError
  | nameError
  | attributeError
  deriving DecidableEq, Repr

/-- Characters that Python treats as whitespace for `str.strip()` inside
`int()` and for `str.split()` with no separator (ASCII portion). -/
def isPyWS (c : Char) : Bool :=
  c = ' ' ∨ c = '\t' ∨ c = '\n' ∨ c = '\r' ∨ c = '\x0b' ∨ c = '\x0c'

/-- Strip leading and trailing whitespace, as `str.strip()` does. -/
def wsStrip (l : List Char) : List Char :=
  ((l.dropWhile isPyWS).reverse.dropWhile isPyWS).reverse

/-- `s.split(sep, 1)` for a one-character separator: `none` when the
separator does not occur (Python returns a one-element list), otherwise the
parts before and after the first occurrence. -/
def splitFirst (sep : Char) : List Char → Option (List Char × List Char)
  | [] => none
  | c :: cs =>
    if c = sep then some ([], cs)
    else
      match splitFirst sep cs with
      | some (a, b) => some (c :: a, b)
      | none => none

/-- `s.split(sep)` for a one-character separator, keeping empty pieces,
exactly as Python does. Always returns at least one piece. -/
def splitAll (sep : Char) : List Char → List (List Char)
  | [] => [[]]
  | c :: cs =>
    if c = sep then [] :: splitAll sep cs
    else
      match splitAll sep cs with
      | h :: t => (c :: h) :: t
      | [] => [[c]]

/-- Pieces of a list cut at every whitespace character (empties kept). -/
def splitWsRaw : List Char → List (List Char)
  | [] => [[]]
  | c :: cs =>
    if isPyWS c then [] :: splitWsRaw cs
    else
      match splitWsRaw cs with
      | h :: t => (c :: h) :: t
      | [] => [[c]]

/-- Python `str.split()` with no argument: split on whitespace runs and drop
the empty pieces. -/
def pySplitWs (l : List Char) : List (List Char) :=
  (splitWsRaw l).filter (fun x => decide (x ≠ []))

/-- Is `pat` an initial segment of `l`? -/
def isPrefL : List Char → List Char → Bool
  | [], _ => true
  | _ :: _, [] => false
  | a :: as, b :: bs => a = b && isPrefL as bs

/-- Does `pat` occur contiguously anywhere in `l`? -/
def containsL (pat : List Char) : List Char → Bool
  | [] => isPrefL pat []
  | c :: cs => isPrefL pat (c :: cs) || containsL pat cs

/-- `re.search(pat, s) is not None` for the literal patterns used by the
source (`"OK"`, `"ERROR"`): neither contains a regex metacharacter, so the
search is plain substring containment. -/
def reSearch (pat : String) (s : String) : Bool :=
  containsL pat.toList s.toList

/-- Value of a hexadecimal digit character, as accepted by `int(s, 16)`. -/
def hexVal (c : Char) : Option Nat :=
  if '0' ≤ c ∧ c ≤ '9' then some (c.toNat - 48)
  else if 'a' ≤ c ∧ c ≤ 'f' then some (c.toNat - 87)
  else if 'A' ≤ c ∧ c ≤ 'F' then some (c.toNat - 55)
  else none

/-- Value of a decimal digit character, as accepted by `int(s)`. -/
def decVal (c : Char) : Option Nat :=
  if '0' ≤ c ∧ c ≤ '9' then some (c.toNat - 48) else none

/-- Continue a CPython digit run in base `b`: after the first digit, a single
underscore may separate digits (`1_2` is legal, `1__2` and a trailing `1_`
are not). `acc` is the value accumulated so far. -/
def digitRun (dv : Char → Option Nat) (b : Nat) : List Char → Nat → Option Nat
  | [], acc => some acc
  | c :: cs, acc =>
    if c = '_' then
      match cs with
      | [] => none
      | c2 :: cs2 =>
        match dv c2 with
        | some d => digitRun dv b cs2 (b * acc + d)
        | none => none
    else
      match dv c with
      | some d => digitRun dv b cs (b * acc + d)
      | none => none

/-- A CPython digit token: at least one digit, then a digit run (so a leading
underscore is rejected). -/
def digitStart (dv : Char → Option Nat) (b : Nat) (l : List Char) : Option Nat :=
  match l with
  | [] => none
  | c :: cs =>
    match dv c with
    | some d => digitRun dv b cs d
    | none => none

/-- Body of `int(s, 16)` after sign removal: an optional `0x`/`0X` marker
(an underscore may directly follow it), then hex digits. -/
def hexBody (l : List Char) : Option Nat :=
  match l with
  | c0 :: c1 :: rest =>
    if c0 = '0' ∧ (c1 = 'x' ∨ c1 = 'X') then
      match rest with
      | '_' :: r => digitStart hexVal 16 r
      | _ => digitStart hexVal 16 rest
    else digitStart hexVal 16 l
  | _ => digitStart hexVal 16 l

/-- The optional sign at the front of a numeric literal: the sign factor and
the remaining characters. -/
def pySignSplit (l : List Char) : Int × List Char :=
  match l with
  | [] => (1, [])
  | c :: r => if c = '+' then (1, r) else if c = '-' then (-1, r) else (1, c :: r)

/-- `int(s, 16)` on the characters of `s`: strip whitespace, take an optional
sign, then a hex body; a `ValueError` otherwise. -/
def pyIntHexCore (l : List Char) : Except PyErr Int :=
  match hexBody (pySignSplit (wsStrip l)).2 with
  | some n => Except.ok ((pySignSplit (wsStrip l)).1 * Int.ofNat n)
  | none => Except.error PyErr.valueError

/-- `int(s)` (base 10) on the characters of `s`. -/
def pyIntDecCore (l : List Char) : Except PyErr Int :=
  match digitStart decVal 10 (pySignSplit (wsStrip l)).2 with
  | some n => Except.ok ((pySignSplit (wsStrip l)).1 * Int.ofNat n)
  | none => Except.error PyErr.valueError

/-- Digit character for a value `d < base`; digits above 9 are the uppercase
letters, as in Python's canonical rendering. -/
def digChar (d : Nat) : Char :=
  if d < 10 then Char.ofNat (48 + d) else Char.ofNat (55 + d)

/-- Digits of `n` in base `p + 2` (most significant first), prepended to
`acc`, computed with explicit fuel so the recursion is structural (the value
is the digit string whenever `n ≤ fuel`). The base is supplied as `p + 2` so
it is at least 2. -/
def reprAuxF (p : Nat) : Nat → Nat → List Char → List Char
  | 0, _, acc => acc
  | _ + 1, 0, acc => acc
  | fuel + 1, n + 1, acc =>
    reprAuxF p fuel ((n + 1) / (p + 2)) (digChar ((n + 1) % (p + 2)) :: acc)

/-- Digits of `n` in base `p + 2`, most significant first. -/
def reprAux (p n : Nat) (acc : List Char) : List Char :=
  reprAuxF p n n acc

/-- Canonical decimal rendering of a natural number (`str(n)` in Python). -/
def decRepr (n : Nat) : List Char :=
  if n = 0 then ['0'] else reprAux 8 n []

/-- Canonical hexadecimal rendering of a natural number, uppercase digits. -/
def hexRepr (n : Nat) : List Char :=
  if n = 0 then ['0'] else reprAux 14 n []

/-- The dotted-decimal rendering of the four address octets `o0.o1.o2.o3`. -/
def dottedQuad (o0 o1 o2 o3 : Nat) : List Char :=
  decRepr o0 ++ '.' :: (decRepr o1 ++ '.' :: (decRepr o2 ++ '.' :: decRepr o3))

/-- `socket.inet_ntoa(struct.pack("<L", n))` for `0 ≤ n < 2^32`: the packed
little-endian word is rendered dotted-decimal with the least significant byte
first. -/
def ntoaWord (n : Nat) : List Char :=
  dottedQuad (n % 256) (n / 256 % 256) (n / 65536 % 256) (n / 16777216 % 256)

/-- `struct.pack("<L", v)` followed by `socket.inet_ntoa`: `struct.error`
when `v` is outside `0 .. 2^32 - 1`, else the dotted-decimal text. -/
def packInetNtoa (v : Int) : Except PyErr (List Char) :=
  if v < 0 ∨ 4294967295 < v then Except.error PyErr.structError
  else Except.ok (ntoaWord v.toNat)

/-- One field of the DHCP status line, decoded as the source does:
`socket.inet_ntoa(struct.pack("<L", int(field, base=16)))`. -/
def ipFieldDecode (f : List Char) : Except PyErr (List Char) :=
  match pyIntHexCore f with
  | Except.error e => Except.error e
  | Except.ok w => packInetNtoa w

/-- Number of set bits of a natural number, with explicit fuel (correct
whenever `n ≤ fuel`, since the value at least halves each step). -/
def popcF : Nat → Nat → Nat
  | 0, _ => 0
  | _ + 1, 0 => 0
  | fuel + 1, n + 1 => (n + 1) % 2 + popcF fuel ((n + 1) / 2)

/-- Number of set bits of a natural number. -/
def popc (n : Nat) : Nat :=
  popcF n n

/-- `bin(m).count('1')`: the binary rendering of an integer contains exactly
one `'1'` character per set bit of its absolute value (the `0b` marker and a
possible minus sign contribute none). -/
def binCount1 (m : Int) : Nat :=
  popc m.natAbs

/-- `sum([bin(int(x)).count('1') for x in pieces])`, evaluating `int(x)`
left to right so the first bad piece raises, as the comprehension does. -/
def binBitsSum : List (List Char) → Except PyErr Nat
  | [] => Except.ok 0
  | x :: xs =>
    match pyIntDecCore x with
    | Except.error e => Except.error e
    | Except.ok m =>
      match binBitsSum xs with
      | Except.error e => Except.error e
      | Except.ok r => Except.ok (binCount1 m + r)

/-- The dictionary `DhcpParse` builds: all nine keys are always present. -/
structure Lease where
  IpAddr : String
  Netmask : String
  Gateway : String
  DhcpServer : String
  DnsPrimary : String
  DnsSecondary : String
  RxMaxBps : String
  TxMaxBps : String
  NetmaskBits : Nat
  deriving DecidableEq, Repr

/-- The field stage of `DhcpParse` (the body guarded by `len(fields) == 2`
in the source): split the text after the colon at `','`; with fewer than 8
fields return `None`; decode fields 0-5 as little-endian hex IPv4 words; sum
the set bits of the netmask octets; keep field 6 verbatim and the first
whitespace token of field 7 (an empty token list raises `IndexError`, as
`txMaxBps[0]` does). Decode failures propagate as exceptions, exactly where
the Python expressions raise. -/
def dhcpFields (rest : List Char) : Except PyErr (Option Lease) :=
  match splitAll ',' rest with
  | f0 :: f1 :: f2 :: f3 :: f4 :: f5 :: f6 :: f7 :: _ =>
      match ipFieldDecode f0 with
      | Except.error e => Except.error e
      | Except.ok a0 =>
      match ipFieldDecode f1 with
      | Except.error e => Except.error e
      | Except.ok a1 =>
      match ipFieldDecode f2 with
      | Except.error e => Except.error e
      | Except.ok a2 =>
      match ipFieldDecode f3 with
      | Except.error e => Except.error e
      | Except.ok a3 =>
      match ipFieldDecode f4 with
      | Except.error e => Except.error e
      | Except.ok a4 =>
      match ipFieldDecode f5 with
      | Except.error e => Except.error e
      | Except.ok a5 =>
      match binBitsSum (splitAll '.' a1) with
      | Except.error e => Except.error e
      | Except.ok netmaskbits =>
      match pySplitWs f7 with
      | [] => Except.error PyErr.indexError
      | tx0 :: _ =>
        Except.ok (some {
          IpAddr := String.mk a0
          Netmask := String.mk a1
          Gateway := String.mk a2
          DhcpServer := String.mk a3
          DnsPrimary := String.mk a4
          DnsSecondary := String.mk a5
          RxMaxBps := String.mk f6
          TxMaxBps := String.mk tx0
          NetmaskBits := netmaskbits })
  | _ => Except.ok none

/-- `DhcpParse(dhcp)` from the source, for a string argument (the
`isinstance(dhcp, str)` guard holds): split once at `':'`; one part means no
colon, hence `None`; otherwise the comma-separated remainder is handled by
`dhcpFields`. -/
def DhcpParse (dhcp : String) : Except PyErr (Option Lease) :=
  match splitFirst ':' dhcp.toList with
  | none => Except.ok none
  | some (_pre, rest) => dhcpFields rest

/-- The encoding direction the wire format uses (test-side inverse of the
parser's decode): the address `o0.o1.o2.o3` stored as a little-endian 32-bit
word — least significant byte = first octet — rendered as a zero-padded
8-digit hexadecimal field. -/
def ipEncodeLE (o0 o1 o2 o3 : Nat) : List Char :=
  List.replicate (8 - (hexRepr (o0 + 256 * o1 + 65536 * o2 + 16777216 * o3)).length) '0'
    ++ hexRepr (o0 + 256 * o1 + 65536 * o2 + 16777216 * o3)

/-- One observable action on the serial port: a `write` of a command string,
or a `read` with its byte budget and the timeout configured at that moment. -/
inductive SEv where
  | wr (cmd : String)
  | rd (budget : Nat) (tmo : Int)
  deriving DecidableEq, Repr

/-- The serial session: its configured read timeout (`serial.Serial(...,
timeout=2)` opens it at 2), an oracle script of the texts the successive
reads will return (`""` is the empty read; an exhausted script also reads
empty), and the log of port events so far. Responses are assumed valid
UTF-8, so `decode("utf-8")` is the identity on this model. -/
structure Serial where
  timeout : Int
  script : List String
  events : List SEv
  deriving DecidableEq, Repr

/-- `ser.write(...)`: record the command. -/
def serWrite (ser : Serial) (cmd : String) : Serial :=
  { ser with events := ser.events ++ [SEv.wr cmd] }

/-- `ser.read(budget)`: return the next scripted response (or `""` when the
script is exhausted, a timed-out empty read) and record the read together
with the timeout in force. -/
def serRead (ser : Serial) (budget : Nat) : String × Serial :=
  match ser.script with
  | [] => ("", { ser with events := ser.events ++ [SEv.rd budget ser.timeout] })
  | r :: rest =>
    (r, { ser with script := rest, events := ser.events ++ [SEv.rd budget ser.timeout] })

/-- `ModemOk(ser)`: send `AT`, read up to 10 bytes. When the read is empty
the local `s` is never assigned and `re.search('OK', s)` raises
`UnboundLocalError`; otherwise the result is whether the text contains
`OK`. (The `verbose` prints do not affect the result.) -/
def ModemOk (ser : Serial) : Serial × Except PyErr Bool :=
  let ser1 := serWrite ser "AT\r"
  let p := serRead ser1 10
  if p.1 = "" then (p.2, Except.error PyErr.nameError)
  else (p.2, Except.ok (reSearch "OK" p.1))

/-- `ModemConnect(ser)`: send `AT^NDISDUP=1,1,"h2g2"`, read up to 30 bytes;
empty read raises as in `ModemOk`; success is containment of `OK`. -/
def ModemConnect (ser : Serial) : Serial × Except PyErr Bool :=
  let ser1 := serWrite ser "AT^NDISDUP=1,1,\"h2g2\"\r"
  let p := serRead ser1 30
  if p.1 = "" then (p.2, Except.error PyErr.nameError)
  else (p.2, Except.ok (reSearch "OK" p.1))

/-- `ModemHangup(ser)`: send `AT^NDISDUP=1,0`, read up to 20 bytes. An empty
first read raises (`s` unassigned). If the text has `OK`, succeed; else if
it has `ERROR`, fail. Otherwise save the timeout, set it to 20, read up to
10 more bytes (keeping the old text if the delayed read is empty), restore
the timeout, and succeed exactly when the resulting text has `OK`. -/
def ModemHangup (ser : Serial) : Serial × Except PyErr Bool :=
  let ser1 := serWrite ser "AT^NDISDUP=1,0\r"
  let p := serRead ser1 20
  if p.1 = "" then (p.2, Except.error PyErr.nameError)
  else
    let s := p.1
    let ser2 := p.2
    if reSearch "OK" s then (ser2, Except.ok true)
    else if reSearch "ERROR" s then (ser2, Except.ok false)
    else
      let t := ser2.timeout
      let ser3 : Serial := { ser2 with timeout := 20 }
      let q := serRead ser3 10
      let s2 := if q.1 = "" then s else q.1
      let ser4 : Serial := { q.2 with timeout := t }
      if reSearch "OK" s2 then (ser4, Except.ok true) else (ser4, Except.ok false)

/-- `ModemDhcpStatus(ser)`: send `AT^DHCP?`, read up to 100 bytes; an empty
read raises (`s` unassigned); without `OK` in the text the result is `None`;
otherwise the text goes to `DhcpParse`, whose exceptions propagate. -/
def ModemDhcpStatus (ser : Serial) : Serial × Except PyErr (Option Lease) :=
  let ser1 := serWrite ser "AT^DHCP?\r"
  let p := serRead ser1 100
  if p.1 = "" then (p.2, Except.error PyErr.nameError)
  else if reSearch "OK" p.1 then (p.2, DhcpParse p.1)
  else (p.2, Except.ok none)

/-- A call the main program makes on the network reconciler (the
`subprocess`-backed helpers), recorded with its arguments. -/
inductive Rec where
  | updAddr (lease : Lease)
  | setGw (gw : String)
  | addDns (dns : String)
  | flushAddr
  | rmGw (gw : String) (dev : String)
  | rmDns
  deriving DecidableEq, Repr

/-- Results of the OS queries the disconnect flow consults: the `ifconfig`
output for the interface (`none` when `GetInterface` fails) and the default
gateway's address and device (`none` when none is found). -/
structure World where
  ifconfigOut : Option String
  gw : Option (String × String)
  deriving DecidableEq, Repr

/-- `EraseInterfaceIpAddress(dev)`: flush the address only when
`GetInterface` succeeded. -/
def EraseInterfaceIpAddress (w : World) : List Rec :=
  match w.ifconfigOut with
  | some _ => [Rec.flushAddr]
  | none => []

/-- The `args.connect` branch of the main program, given the opened session
(`none` when `OpenModem` failed). The probe result is overwritten without
being inspected, `ModemConnect`'s result is bound to `ok` but never checked
before `ModemDhcpStatus`, and the three reconciler calls run only under
`if status:`. Exceptions from the exchanges propagate. -/
def ConnectFlow (serOpt : Option Serial) : Except PyErr (Option Serial × List Rec) :=
  match serOpt with
  | none => Except.ok (none, [])
  | some ser =>
    match ModemOk ser with
    | (_, Except.error e) => Except.error e
    | (ser1, Except.ok _okProbe) =>
      match ModemConnect ser1 with
      | (_, Except.error e) => Except.error e
      | (ser2, Except.ok _okConn) =>
        match ModemDhcpStatus ser2 with
        | (_, Except.error e) => Except.error e
        | (ser3, Except.ok none) => Except.ok (some ser3, [])
        | (ser3, Except.ok (some lease)) =>
          Except.ok (some ser3,
            [Rec.updAddr lease, Rec.setGw lease.Gateway, Rec.addDns lease.DnsPrimary])

/-- The `args.disconnect` branch of the main program. There is no `if ser:`
guard: when `OpenModem` failed, `ModemHangup(None)` evaluates `None.write`
and raises `AttributeError`. Otherwise the hangup result is bound to `ok`
and never inspected, and the teardown runs: erase the interface address,
remove the gateway found for the device (if any) via
`RemoveGateway(gw, dev)`, and remove the DNS entry. -/
def DisconnectFlow (serOpt : Option Serial) (w : World) :
    Except PyErr (Serial × List Rec) :=
  match serOpt with
  | none => Except.error PyErr.attributeError
  | some ser =>
    match ModemHangup ser with
    | (_, Except.error e) => Except.error e
    | (ser1, Except.ok _okHang) =>
      let evs := EraseInterfaceIpAddress w
      let evs2 :=
        match w.gw with
        | some g => evs ++ [Rec.rmGw g.1 "wwan0"]
        | none => evs
      Except.ok (ser1, evs2 ++ [Rec.rmDns])

/-- The command-line flags the main program acts on. -/
structure Args where
  connect : Bool
  disconnect : Bool
  deriving DecidableEq, Repr

/-- The main program after argument parsing: the connect branch when
`args.connect`, then the disconnect branch when `args.disconnect`, then
`exit(0)`. The result is the process exit code paired with every reconciler
call made; an `error` is an uncaught exception aborting the process before
`exit(0)`. `serC`/`serD` are the `OpenModem` results for the two branches. -/
def Main (a : Args) (serC serD : Option Serial) (w : World) :
    Except PyErr (Nat × List Rec) :=
  match (if a.connect then (ConnectFlow serC).map Prod.snd else Except.ok []) with
  | Except.error e => Except.error e
  | Except.ok recsC =>
    match (if a.disconnect then (DisconnectFlow serD w).map Prod.snd else Except.ok []) with
    | Except.error e => Except.error e
    | Except.ok recsD => Except.ok (0, recsC ++ recsD)

/-- A well-formed `AT^DHCP?` response carrying netmask `255.255.255.0`
(little-endian word `00FFFFFF`). -/
def dhcpRespMask24 : String :=
  "\r\n^DHCP: 0100000A,00FFFFFF,0200000A,0200000A,08080808,04040808,7240000,7240000\r\n\r\nOK\r\n"

/-- A `AT^DHCP?` response whose netmask word `00FF00FF` decodes to the
non-contiguous mask `255.0.255.0`. -/
def dhcpRespMaskNC : String :=
  "\r\n^DHCP: 0100000A,00FF00FF,0200000A,0200000A,08080808,04040808,7240000,7240000\r\n\r\nOK\r\n"

/-- The lease `dhcpRespMask24` parses to. -/
def leaseMask24 : Lease :=
  { IpAddr := "10.0.0.1", Netmask := "255.255.255.0", Gateway := "10.0.0.2",
    DhcpServer := "10.0.0.2", DnsPrimary := "8.8.8.8", DnsSecondary := "8.8.4.4",
    RxMaxBps := "7240000", TxMaxBps := "7240000", NetmaskBits := 24 }

/-- The lease `dhcpRespMaskNC` parses to: the non-contiguous mask
`255.0.255.0` with `NetmaskBits = 16`, the total set-bit count. -/
def leaseMaskNC : Lease :=
  { IpAddr := "10.0.0.1", Netmask := "255.0.255.0", Gateway := "10.0.0.2",
    DhcpServer := "10.0.0.2", DnsPrimary := "8.8.8.8", DnsSecondary := "8.8.4.4",
    RxMaxBps := "7240000", TxMaxBps := "7240000", NetmaskBits := 16 }

/-! ### Helper lemmas about the character and digit machinery -/

theorem dropWhileFalse (p : Char → Bool) (l : List Char)
    (h : ∀ c ∈ l, p c = false) : l.dropWhile p = l := by
  cases l with
  | nil => rfl
  | cons c cs => simp [List.dropWhile, h c (by simp)]

theorem wsStrip_eq_self (l : List Char) (h : ∀ c ∈ l, isPyWS c = false) :
    wsStrip l = l := by
  unfold wsStrip
  rw [dropWhileFalse _ _ h,
      dropWhileFalse _ _ (fun c hc => h c (List.mem_reverse.mp hc)),
      List.reverse_reverse]

theorem hexVal_digChar : ∀ d, d < 16 → hexVal (digChar d) = some d := by decide

theorem decVal_digChar : ∀ d, d < 10 → decVal (digChar d) = some d := by decide

theorem digChar_not_ws : ∀ d, d < 16 → isPyWS (digChar d) = false := by decide

theorem digChar_ne : ∀ d, d < 16 →
    digChar d ≠ '_' ∧ digChar d ≠ '+' ∧ digChar d ≠ '-' ∧
    digChar d ≠ 'x' ∧ digChar d ≠ 'X' ∧ digChar d ≠ '.' := by decide

theorem reprAuxF_acc (p : Nat) :
    ∀ fuel n acc, reprAuxF p fuel n acc = reprAuxF p fuel n [] ++ acc := by
  intro fuel
  induction fuel with
  | zero => intro n acc; rfl
  | succ f ih =>
    intro n acc
    match n with
    | 0 => rfl
    | m + 1 =>
      rw [reprAuxF, reprAuxF, ih _ (digChar ((m + 1) % (p + 2)) :: acc),
          ih _ [digChar ((m + 1) % (p + 2))], List.append_assoc]
      rfl

theorem reprAuxF_chars (p : Nat) :
    ∀ fuel n, ∀ c ∈ reprAuxF p fuel n [], ∃ d, d < p + 2 ∧ c = digChar d := by
  intro fuel
  induction fuel with
  | zero => intro n c hc; simp [reprAuxF] at hc
  | succ f ih =>
    intro n c hc
    match n with
    | 0 => simp [reprAuxF] at hc
    | m + 1 =>
      rw [reprAuxF, reprAuxF_acc] at hc
      rcases List.mem_append.mp hc with h1 | h2
      · exact ih _ c h1
      · refine ⟨(m + 1) % (p + 2), Nat.mod_lt _ (by omega), ?_⟩
        simpa using h2

theorem reprAuxF_foldl (p : Nat) (dv : Char → Option Nat)
    (hdv : ∀ d, d < p + 2 → dv (digChar d) = some d) :
    ∀ fuel n, n ≤ fuel →
      (reprAuxF p fuel n []).foldl (fun a c => (p + 2) * a + (dv c).getD 0) 0 = n := by
  intro fuel
  induction fuel with
  | zero => intro n hn; interval_cases n; rfl
  | succ f ih =>
    intro n hn
    match n with
    | 0 => rfl
    | m + 1 =>
      have hq : (m + 1) / (p + 2) ≤ f := by
        have h2 : (m + 1) / (p + 2) < m + 1 :=
          Nat.div_lt_self (by omega) (by omega)
        omega
      rw [reprAuxF, reprAuxF_acc, List.foldl_append, ih _ hq]
      simp only [List.foldl_cons, List.foldl_nil,
        hdv _ (Nat.mod_lt _ (show 0 < p + 2 by omega))]
      simp only [Option.getD_some]
      exact Nat.div_add_mod (m + 1) (p + 2)

theorem reprAuxF_ne_nil (p : Nat) :
    ∀ fuel n, n ≠ 0 → n ≤ fuel → reprAuxF p fuel n [] ≠ [] := by
  intro fuel
  cases fuel with
  | zero => intro n h0 hle; omega
  | succ f =>
    intro n h0 _
    match n with
    | 0 => exact absurd rfl h0
    | m + 1 =>
      rw [reprAuxF, reprAuxF_acc]
      simp

theorem decRepr_chars (n : Nat) : ∀ c ∈ decRepr n, ∃ d, d < 10 ∧ c = digChar d := by
  unfold decRepr
  split
  · intro c hc
    refine ⟨0, by omega, ?_⟩
    simpa using hc
  · exact fun c hc => reprAuxF_chars 8 n n c hc

theorem hexRepr_chars (n : Nat) : ∀ c ∈ hexRepr n, ∃ d, d < 16 ∧ c = digChar d := by
  unfold hexRepr
  split
  · intro c hc
    refine ⟨0, by omega, ?_⟩
    simpa using hc
  · exact fun c hc => reprAuxF_chars 14 n n c hc

theorem decRepr_ne_nil (n : Nat) : decRepr n ≠ [] := by
  unfold decRepr
  split
  · simp
  · exact reprAuxF_ne_nil 8 n n (by assumption) (le_refl n)

theorem hexRepr_ne_nil (n : Nat) : hexRepr n ≠ [] := by
  unfold hexRepr
  split
  · simp
  · exact reprAuxF_ne_nil 14 n n (by assumption) (le_refl n)

theorem decRepr_foldl (n : Nat) :
    (decRepr n).foldl (fun a c => 10 * a + (decVal c).getD 0) 0 = n := by
  unfold decRepr
  split
  · simp_all
    decide
  · have := reprAuxF_foldl 8 decVal
      (fun d hd => decVal_digChar d (by omega)) n n (le_refl n)
    simpa using this

theorem hexRepr_foldl (n : Nat) :
    (hexRepr n).foldl (fun a c => 16 * a + (hexVal c).getD 0) 0 = n := by
  unfold hexRepr
  split
  · simp_all
    decide
  · have := reprAuxF_foldl 14 hexVal
      (fun d hd => hexVal_digChar d (by omega)) n n (le_refl n)
    simpa using this

theorem digitRun_digits (dv : Char → Option Nat) (b : Nat) (l : List Char) :
    ∀ acc, (∀ c ∈ l, c ≠ '_' ∧ (dv c).isSome) →
      digitRun dv b l acc =
        some (l.foldl (fun a c => b * a + (dv c).getD 0) acc) := by
  induction l with
  | nil => intro acc _; rfl
  | cons c cs ih =>
    intro acc h
    obtain ⟨hu, hs⟩ := h c (by simp)
    obtain ⟨d, hd⟩ := Option.isSome_iff_exists.mp hs
    have step : digitRun dv b (c :: cs) acc = digitRun dv b cs (b * acc + d) := by
      rw [digitRun.eq_def]
      simp [hu, hd]
    rw [step, ih _ (fun x hx => h x (by simp [hx]))]
    simp [hd]

theorem digitStart_digits (dv : Char → Option Nat) (b : Nat) (l : List Char)
    (hne : l ≠ []) (h : ∀ c ∈ l, c ≠ '_' ∧ (dv c).isSome) :
    digitStart dv b l =
      some (l.foldl (fun a c => b * a + (dv c).getD 0) 0) := by
  cases l with
  | nil => exact absurd rfl hne
  | cons c cs =>
    obtain ⟨hu, hs⟩ := h c (by simp)
    obtain ⟨d, hd⟩ := Option.isSome_iff_exists.mp hs
    simp only [digitStart, hd]
    rw [digitRun_digits dv b cs _ (fun x hx => h x (by simp [hx]))]
    simp [hd]

theorem hexBody_digits (l : List Char)
    (h : ∀ c ∈ l, ∃ d, d < 16 ∧ c = digChar d) :
    hexBody l = digitStart hexVal 16 l := by
  rcases l with - | ⟨c0, - | ⟨c1, rest⟩⟩
  · rfl
  · rfl
  · obtain ⟨d, hd, hc1⟩ := h c1 (by simp)
    have hne := digChar_ne d hd
    simp only [hexBody]
    rw [if_neg]
    rintro ⟨-, h2 | h2⟩
    · exact hne.2.2.2.1 (by rw [← hc1, h2])
    · exact hne.2.2.2.2.1 (by rw [← hc1, h2])

theorem pySignSplit_nosign (l : List Char)
    (h : ∀ c ∈ l, ∃ d, d < 16 ∧ c = digChar d) : pySignSplit l = (1, l) := by
  cases l with
  | nil => rfl
  | cons c cs =>
    obtain ⟨d, hd, rfl⟩ := h c (by simp)
    have hne := digChar_ne d hd
    simp [pySignSplit, hne.2.1, hne.2.2.1]

theorem pyIntHex_of_digits (l : List Char) (hne : l ≠ [])
    (h : ∀ c ∈ l, ∃ d, d < 16 ∧ c = digChar d) :
    pyIntHexCore l =
      Except.ok (Int.ofNat (l.foldl (fun a c => 16 * a + (hexVal c).getD 0) 0)) := by
  have hws : wsStrip l = l :=
    wsStrip_eq_self l (fun c hc => by
      obtain ⟨d, hd, rfl⟩ := h c hc
      exact digChar_not_ws d hd)
  have hdig : ∀ c ∈ l, c ≠ '_' ∧ (hexVal c).isSome := fun c hc => by
    obtain ⟨d, hd, rfl⟩ := h c hc
    exact ⟨(digChar_ne d hd).1, by rw [hexVal_digChar d hd]; rfl⟩
  unfold pyIntHexCore
  rw [hws, pySignSplit_nosign l h]
  rw [show ((1 : Int), l).2 = l from rfl]
  rw [hexBody_digits l h, digitStart_digits hexVal 16 l hne hdig]
  simp

theorem pyIntDec_of_digits (l : List Char) (hne : l ≠ [])
    (h : ∀ c ∈ l, ∃ d, d < 10 ∧ c = digChar d) :
    pyIntDecCore l =
      Except.ok (Int.ofNat (l.foldl (fun a c => 10 * a + (decVal c).getD 0) 0)) := by
  have h16 : ∀ c ∈ l, ∃ d, d < 16 ∧ c = digChar d := fun c hc => by
    obtain ⟨d, hd, rfl⟩ := h c hc
    exact ⟨d, by omega, rfl⟩
  have hws : wsStrip l = l :=
    wsStrip_eq_self l (fun c hc => by
      obtain ⟨d, hd, rfl⟩ := h16 c hc
      exact digChar_not_ws d hd)
  have hdig : ∀ c ∈ l, c ≠ '_' ∧ (decVal c).isSome := fun c hc => by
    obtain ⟨d, hd, rfl⟩ := h c hc
    refine ⟨(digChar_ne d (by omega)).1, ?_⟩
    rw [decVal_digChar d hd]
    rfl
  unfold pyIntDecCore
  rw [hws, pySignSplit_nosign l h16]
  rw [show ((1 : Int), l).2 = l from rfl]
  rw [digitStart_digits decVal 10 l hne hdig]
  simp

theorem pyIntDecCore_decRepr (n : Nat) :
    pyIntDecCore (decRepr n) = Except.ok (Int.ofNat n) := by
  rw [pyIntDec_of_digits (decRepr n) (decRepr_ne_nil n) (decRepr_chars n),
      decRepr_foldl n]

theorem foldl_hex_zeros (k : Nat) :
    (List.replicate k '0').foldl (fun a c => 16 * a + (hexVal c).getD 0) 0 = 0 := by
  induction k with
  | zero => rfl
  | succ m ih =>
    rw [List.replicate_succ, List.foldl_cons]
    have h0 : 16 * 0 + (hexVal '0').getD 0 = 0 := by decide
    rw [h0]
    exact ih

theorem pyIntHexCore_padHex (k v : Nat) :
    pyIntHexCore (List.replicate k '0' ++ hexRepr v) = Except.ok (Int.ofNat v) := by
  have hch : ∀ c ∈ List.replicate k '0' ++ hexRepr v, ∃ d, d < 16 ∧ c = digChar d := by
    intro c hc
    rcases List.mem_append.mp hc with h1 | h2
    · have hc0 : c = '0' := List.eq_of_mem_replicate h1
      exact ⟨0, by omega, by rw [hc0]; decide⟩
    · exact hexRepr_chars v c h2
  have hne : List.replicate k '0' ++ hexRepr v ≠ [] := by
    intro hemp
    exact hexRepr_ne_nil v (List.append_eq_nil.mp hemp).2
  rw [pyIntHex_of_digits _ hne hch, List.foldl_append, foldl_hex_zeros,
      hexRepr_foldl]

theorem splitAll_no_sep (sep : Char) (l : List Char) (h : ∀ c ∈ l, c ≠ sep) :
    splitAll sep l = [l] := by
  induction l with
  | nil => rfl
  | cons c cs ih =>
    simp only [splitAll]
    rw [if_neg (h c (by simp)), ih (fun x hx => h x (by simp [hx]))]

theorem splitAll_append (sep : Char) (xs ys : List Char)
    (h : ∀ c ∈ xs, c ≠ sep) :
    splitAll sep (xs ++ sep :: ys) = xs :: splitAll sep ys := by
  induction xs with
  | nil => simp [splitAll]
  | cons c cs ih =>
    simp only [List.cons_append, splitAll]
    rw [if_neg (h c (by simp)),
        show cs.append (sep :: ys) = cs ++ sep :: ys from rfl,
        ih (fun x hx => h x (by simp [hx]))]

theorem splitAll_dottedQuad (a b c d : Nat) :
    splitAll '.' (dottedQuad a b c d) =
      [decRepr a, decRepr b, decRepr c, decRepr d] := by
  have hnd : ∀ n : Nat, ∀ ch ∈ decRepr n, ch ≠ '.' := by
    intro n ch hch
    obtain ⟨dd, hdd, rfl⟩ := decRepr_chars n ch hch
    exact (digChar_ne dd (by omega)).2.2.2.2.2
  unfold dottedQuad
  rw [splitAll_append '.' _ _ (hnd a), splitAll_append '.' _ _ (hnd b),
      splitAll_append '.' _ _ (hnd c), splitAll_no_sep '.' _ (hnd d)]

theorem binBitsSum_quad (a b c d : Nat) :
    binBitsSum [decRepr a, decRepr b, decRepr c, decRepr d] =
      Except.ok (popc a + (popc b + (popc c + (popc d + 0)))) := by
  simp only [binBitsSum, pyIntDecCore_decRepr]
  simp [binCount1]

theorem ipFieldDecode_ok (f : List Char) (w : Int)
    (h : pyIntHexCore f = Except.ok w) (h1 : 0 ≤ w) (h2 : w ≤ 4294967295) :
    ipFieldDecode f = Except.ok (ntoaWord w.toNat) := by
  unfold ipFieldDecode packInetNtoa
  simp only [h]
  rw [if_neg (show ¬(w < 0 ∨ 4294967295 < w) by omega)]

theorem DhcpParse_ok (s : String) (pre rest : List Char)
    (f0 f1 f2 f3 f4 f5 f6 f7 : List Char) (more : List (List Char))
    (w0 w1 w2 w3 w4 w5 : Int) (tx0 : List Char) (txr : List (List Char))
    (hsp : splitFirst ':' s.toList = some (pre, rest))
    (hfa : splitAll ',' rest = f0 :: f1 :: f2 :: f3 :: f4 :: f5 :: f6 :: f7 :: more)
    (h0 : pyIntHexCore f0 = Except.ok w0) (r0 : 0 ≤ w0 ∧ w0 ≤ 4294967295)
    (h1 : pyIntHexCore f1 = Except.ok w1) (r1 : 0 ≤ w1 ∧ w1 ≤ 4294967295)
    (h2 : pyIntHexCore f2 = Except.ok w2) (r2 : 0 ≤ w2 ∧ w2 ≤ 4294967295)
    (h3 : pyIntHexCore f3 = Except.ok w3) (r3 : 0 ≤ w3 ∧ w3 ≤ 4294967295)
    (h4 : pyIntHexCore f4 = Except.ok w4) (r4 : 0 ≤ w4 ∧ w4 ≤ 4294967295)
    (h5 : pyIntHexCore f5 = Except.ok w5) (r5 : 0 ≤ w5 ∧ w5 ≤ 4294967295)
    (htx : pySplitWs f7 = tx0 :: txr) :
    DhcpParse s = Except.ok (some
      { IpAddr := String.mk (ntoaWord w0.toNat)
        Netmask := String.mk (ntoaWord w1.toNat)
        Gateway := String.mk (ntoaWord w2.toNat)
        DhcpServer := String.mk (ntoaWord w3.toNat)
        DnsPrimary := String.mk (ntoaWord w4.toNat)
        DnsSecondary := String.mk (ntoaWord w5.toNat)
        RxMaxBps := String.mk f6
        TxMaxBps := String.mk tx0
        NetmaskBits := popc (w1.toNat % 256) + (popc (w1.toNat / 256 % 256) +
          (popc (w1.toNat / 65536 % 256) + (popc (w1.toNat / 16777216 % 256) + 0))) }) := by
  have e0 := ipFieldDecode_ok f0 w0 h0 r0.1 r0.2
  have e1 := ipFieldDecode_ok f1 w1 h1 r1.1 r1.2
  have e2 := ipFieldDecode_ok f2 w2 h2 r2.1 r2.2
  have e3 := ipFieldDecode_ok f3 w3 h3 r3.1 r3.2
  have e4 := ipFieldDecode_ok f4 w4 h4 r4.1 r4.2
  have e5 := ipFieldDecode_ok f5 w5 h5 r5.1 r5.2
  have hbb : binBitsSum (splitAll '.' (ntoaWord w1.toNat)) =
      Except.ok (popc (w1.toNat % 256) + (popc (w1.toNat / 256 % 256) +
        (popc (w1.toNat / 65536 % 256) + (popc (w1.toNat / 16777216 % 256) + 0)))) := by
    rw [show ntoaWord w1.toNat = dottedQuad (w1.toNat % 256) (w1.toNat / 256 % 256)
          (w1.toNat / 65536 % 256) (w1.toNat / 16777216 % 256) from rfl,
        splitAll_dottedQuad, binBitsSum_quad]
  unfold DhcpParse dhcpFields
  rw [hsp]
  simp only [hfa, e0, e1, e2, e3, e4, e5, hbb, htx]

/-! ### Helper lemmas: the four return paths of the hangup exchange -/

theorem hangup_case_nil (t : Int) (es : List SEv) :
    ModemHangup { timeout := t, script := [], events := es } =
      ({ timeout := t, script := [],
         events := es ++ [SEv.wr "AT^NDISDUP=1,0\r", SEv.rd 20 t] },
       Except.error PyErr.nameError) := by
  simp [ModemHangup, serWrite, serRead]

theorem hangup_case_empty (t : Int) (es : List SEv) (rest : List String) :
    ModemHangup { timeout := t, script := "" :: rest, events := es } =
      ({ timeout := t, script := rest,
         events := es ++ [SEv.wr "AT^NDISDUP=1,0\r", SEv.rd 20 t] },
       Except.error PyErr.nameError) := by
  simp [ModemHangup, serWrite, serRead]

theorem hangup_case_ok (t : Int) (es : List SEv) (s1 : String) (rest : List String)
    (h1 : s1 ≠ "") (hOK : reSearch "OK" s1 = true) :
    ModemHangup { timeout := t, script := s1 :: rest, events := es } =
      ({ timeout := t, script := rest,
         events := es ++ [SEv.wr "AT^NDISDUP=1,0\r", SEv.rd 20 t] },
       Except.ok true) := by
  simp [ModemHangup, serWrite, serRead, h1, hOK]

theorem hangup_case_error (t : Int) (es : List SEv) (s1 : String) (rest : List String)
    (h1 : s1 ≠ "") (hOK : reSearch "OK" s1 = false) (hE : reSearch "ERROR" s1 = true) :
    ModemHangup { timeout := t, script := s1 :: rest, events := es } =
      ({ timeout := t, script := rest,
         events := es ++ [SEv.wr "AT^NDISDUP=1,0\r", SEv.rd 20 t] },
       Except.ok false) := by
  simp [ModemHangup, serWrite, serRead, h1, hOK, hE]

theorem hangup_case_delayed (t : Int) (es : List SEv) (s1 : String)
    (rest : List String) (h1 : s1 ≠ "")
    (h2 : reSearch "OK" s1 = false) (h3 : reSearch "ERROR" s1 = false) :
    ModemHangup { timeout := t, script := s1 :: rest, events := es } =
      ({ timeout := t, script := rest.tail,
         events := es ++ [SEv.wr "AT^NDISDUP=1,0\r", SEv.rd 20 t, SEv.rd 10 20] },
       Except.ok (reSearch "OK" (rest.headD ""))) := by
  have hempty : reSearch "OK" "" = false := rfl
  cases rest with
  | nil =>
    simp [ModemHangup, serWrite, serRead, h1, h2, h3, hempty]
  | cons r rs =>
    by_cases hr : r = ""
    · subst hr
      simp [ModemHangup, serWrite, serRead, h1, h2, h3, hempty]
    · by_cases hOKr : reSearch "OK" r = true
      · simp [ModemHangup, serWrite, serRead, h1, h2, h3, hr, hOKr]
      · simp [ModemHangup, serWrite, serRead, h1, h2, h3, hr, hOKr]

/-! ### Claim theorems: the hangup exchange and the liveness probe -/

/-- Claim C2: when the first-phase hangup response is a (nonempty) text
containing neither `OK` nor `ERROR`, the operation performs exactly one
further read — budget 10 bytes, at the extended 20-second timeout — on the
already-sent command (the event log holds a single write), and the overall
result is success exactly when the delayed read's text contains `OK`;
otherwise it reports failure. The session's own timeout is back to `t` at
the end. -/
theorem modemHangup_delayed_read (t : Int) (es : List SEv) (s1 : String)
    (rest : List String) (h1 : s1 ≠ "")
    (h2 : reSearch "OK" s1 = false) (h3 : reSearch "ERROR" s1 = false) :
    ModemHangup { timeout := t, script := s1 :: rest, events := es } =
      ({ timeout := t, script := rest.tail,
         events := es ++ [SEv.wr "AT^NDISDUP=1,0\r", SEv.rd 20 t, SEv.rd 10 20] },
       Except.ok (reSearch "OK" (rest.headD ""))) :=
  hangup_case_delayed t es s1 rest h1 h2 h3

/-- Witness for C2: a concrete delayed-completion run — first response
`"\r\n"` (neither token), delayed response `"\r\nOK\r\n"` — succeeds. -/
theorem modemHangup_delayed_read_witness :
    ("\r\n" : String) ≠ "" ∧ reSearch "OK" "\r\n" = false ∧
      reSearch "ERROR" "\r\n" = false ∧
      ModemHangup { timeout := 2, script := ["\r\n", "\r\nOK\r\n"], events := [] } =
        ({ timeout := 2, script := [],
           events := [SEv.wr "AT^NDISDUP=1,0\r", SEv.rd 20 2, SEv.rd 10 20] },
         Except.ok true) := by
  refine ⟨by decide, rfl, rfl, ?_⟩
  have h := modemHangup_delayed_read 2 [] "\r\n" ["\r\nOK\r\n"] (by decide) rfl rfl
  simpa using h

/-- Counterexample to C2 as stated: the empty (timed-out) first-phase read
contains neither `OK` nor `ERROR`, yet no additional read is performed — the
event log records a single read and the scripted delayed response is still
pending — because the operation raises on the unassigned local `s` first. -/
theorem modemHangup_empty_first_read_crash :
    ModemHangup { timeout := 2, script := ["", "\r\nOK\r\n"], events := [] } =
      ({ timeout := 2, script := ["\r\nOK\r\n"],
         events := [SEv.wr "AT^NDISDUP=1,0\r", SEv.rd 20 2] },
       Except.error PyErr.nameError) := rfl

/-- Claim C3: when the first-phase hangup response contains `ERROR` and not
`OK`, the operation fails at once: the result is failure, the script is left
untouched and the event log shows one write and a single read. -/
theorem modemHangup_error_immediate (t : Int) (es : List SEv) (s1 : String)
    (rest : List String) (h1 : s1 ≠ "")
    (h2 : reSearch "OK" s1 = false) (h3 : reSearch "ERROR" s1 = true) :
    ModemHangup { timeout := t, script := s1 :: rest, events := es } =
      ({ timeout := t, script := rest,
         events := es ++ [SEv.wr "AT^NDISDUP=1,0\r", SEv.rd 20 t] },
       Except.ok false) :=
  hangup_case_error t es s1 rest h1 h2 h3

/-- Witness for C3: the concrete response `"\r\nERROR\r\n"` fails with no
second read. -/
theorem modemHangup_error_immediate_witness :
    ("\r\nERROR\r\n" : String) ≠ "" ∧ reSearch "OK" "\r\nERROR\r\n" = false ∧
      reSearch "ERROR" "\r\nERROR\r\n" = true ∧
      ModemHangup { timeout := 2, script := ["\r\nERROR\r\n"], events := [] } =
        ({ timeout := 2, script := [],
           events := [SEv.wr "AT^NDISDUP=1,0\r", SEv.rd 20 2] },
         Except.ok false) := by
  refine ⟨by decide, rfl, rfl, ?_⟩
  exact modemHangup_error_immediate 2 [] "\r\nERROR\r\n" [] (by decide) rfl rfl

/-- Claim C10: on every path of `ModemHangup` — immediate success, immediate
`ERROR` failure, delayed success, delayed failure, and even the raising path
on an empty first read — the session's configured timeout after the call
equals its value before the call: the 20-second extended timeout is always
restored. -/
theorem modemHangup_timeout_restored (ser : Serial) :
    ((ModemHangup ser).1).timeout = ser.timeout := by
  rcases ser with ⟨t, script, es⟩
  cases script with
  | nil => rw [hangup_case_nil]
  | cons s1 rest =>
    by_cases h1 : s1 = ""
    · subst h1
      rw [hangup_case_empty]
    · by_cases hOK : reSearch "OK" s1 = true
      · rw [hangup_case_ok t es s1 rest h1 hOK]
      · by_cases hE : reSearch "ERROR" s1 = true
        · rw [hangup_case_error t es s1 rest h1 (by simpa using hOK) hE]
        · rw [hangup_case_delayed t es s1 rest h1 (by simpa using hOK)
            (by simpa using hE)]

/-- Claim C8 (code bug): on the empty read — a valid transport outcome the
probe is supposed to classify as failure — `ModemOk` instead raises, because
the local `s` is assigned only under `if s2:` and `re.search('OK', s)` then
reads an unbound local. Evaluating the embedded probe at the failing input
shows the raise. -/
theorem modemOk_empty_read_crash :
    ModemOk { timeout := 2, script := [""], events := [] } =
      ({ timeout := 2, script := [], events := [SEv.wr "AT\r", SEv.rd 10 2] },
       Except.error PyErr.nameError) := rfl

/-! ### Claim theorems: the top-level connect, disconnect and exit flows -/

/-- Claim C9 (amended): whenever the hangup exchange returns a result —
reported success and reported failure alike, the result being ignored — the
disconnect flow performs the full teardown: flush the interface address
(the interface being present), remove the gateway found for the device, and
remove the DNS entry. (When the hangup read raises instead of returning, the
process aborts first; see the counterexample.) -/
theorem disconnectFlow_teardown_on_result (ser : Serial) (w : World) (b : Bool)
    (ifo : String) (g : String × String)
    (hh : (ModemHangup ser).2 = Except.ok b)
    (hi : w.ifconfigOut = some ifo) (hg : w.gw = some g) :
    DisconnectFlow (some ser) w =
      Except.ok ((ModemHangup ser).1,
        [Rec.flushAddr, Rec.rmGw g.1 "wwan0", Rec.rmDns]) := by
  rcases hP : ModemHangup ser with ⟨ser1, r⟩
  rw [hP] at hh
  simp only at hh
  subst hh
  unfold DisconnectFlow EraseInterfaceIpAddress
  simp [hP, hi, hg]

/-- Witness for C9: a hangup that reports failure (garbage in both reads),
followed by the full teardown. -/
theorem disconnectFlow_teardown_on_result_witness :
    (ModemHangup { timeout := 2, script := ["junk", "junk2"], events := [] }).2 =
        Except.ok false ∧
      DisconnectFlow (some { timeout := 2, script := ["junk", "junk2"], events := [] })
          { ifconfigOut := some "inet 10.0.0.1", gw := some ("9.9.9.9", "eth0") } =
        Except.ok
          ((ModemHangup { timeout := 2, script := ["junk", "junk2"], events := [] }).1,
           [Rec.flushAddr, Rec.rmGw "9.9.9.9" "wwan0", Rec.rmDns]) :=
  ⟨rfl, disconnectFlow_teardown_on_result
    { timeout := 2, script := ["junk", "junk2"], events := [] }
    { ifconfigOut := some "inet 10.0.0.1", gw := some ("9.9.9.9", "eth0") }
    false "inet 10.0.0.1" ("9.9.9.9", "eth0") rfl rfl rfl⟩

/-- Counterexample to C9 as stated: for the hangup-exchange outcome "empty
(timed-out) first read" the teardown is NOT reached — the flow aborts with
the unbound-local raise — so the teardown is not invoked regardless of
every exchange outcome, only regardless of the reported result. -/
theorem disconnectFlow_no_teardown_on_crash :
    DisconnectFlow (some { timeout := 2, script := [""], events := [] })
        { ifconfigOut := some "inet 10.0.0.1", gw := some ("9.9.9.9", "eth0") } =
      Except.error PyErr.nameError := rfl

/-- Claim C4 (amended): with the three exchange reads returning nonempty
texts and a DHCP response `DhcpParse` does not raise on, the connect flow
always sends all three commands — the probe result never gates anything, and
the DHCP query is sent even though nothing checked the connect result — and
the reconciler calls are made exactly when a lease was produced: no lease,
no mutation. -/
theorem connectFlow_dhcp_unconditional (t : Int) (es : List SEv) (sP sC sD : String)
    (hp : sP ≠ "") (hc : sC ≠ "") (hd : sD ≠ "")
    (hparse : ∀ e : PyErr, DhcpParse sD ≠ Except.error e) :
    ∃ recs : List Rec,
      ConnectFlow (some { timeout := t, script := [sP, sC, sD], events := es }) =
        Except.ok (some
          { timeout := t, script := [],
            events := es ++ [SEv.wr "AT\r", SEv.rd 10 t,
              SEv.wr "AT^NDISDUP=1,1,\"h2g2\"\r", SEv.rd 30 t,
              SEv.wr "AT^DHCP?\r", SEv.rd 100 t] }, recs) ∧
      ((recs = [] ∧ (reSearch "OK" sD = false ∨ DhcpParse sD = Except.ok none)) ∨
       (∃ l : Lease, reSearch "OK" sD = true ∧ DhcpParse sD = Except.ok (some l) ∧
          recs = [Rec.updAddr l, Rec.setGw l.Gateway, Rec.addDns l.DnsPrimary])) := by
  by_cases hOKd : reSearch "OK" sD = true
  · rcases hDP : DhcpParse sD with e | ol
    · exact absurd hDP (hparse e)
    · rcases ol with - | l
      · refine ⟨[], ?_, Or.inl ⟨rfl, Or.inr rfl⟩⟩
        simp [ConnectFlow, ModemOk, ModemConnect, ModemDhcpStatus, serWrite,
          serRead, hp, hc, hd, hOKd, hDP]
      · refine ⟨[Rec.updAddr l, Rec.setGw l.Gateway, Rec.addDns l.DnsPrimary],
          ?_, Or.inr ⟨l, hOKd, rfl, rfl⟩⟩
        simp [ConnectFlow, ModemOk, ModemConnect, ModemDhcpStatus, serWrite,
          serRead, hp, hc, hd, hOKd, hDP]
  · refine ⟨[], ?_, Or.inl ⟨rfl, Or.inl (by simpa using hOKd)⟩⟩
    simp [ConnectFlow, ModemOk, ModemConnect, ModemDhcpStatus, serWrite,
      serRead, hp, hc, hd, hOKd]

/-- Witness for C4: probe answers `OK`, connect answers `ERROR`, and the DHCP
query still runs and produces the lease. -/
theorem connectFlow_dhcp_unconditional_witness :
    ("OK\r\n" : String) ≠ "" ∧ ("\r\nERROR\r\n" : String) ≠ "" ∧
      dhcpRespMask24 ≠ "" ∧
      (∃ recs : List Rec,
        ConnectFlow (some
            { timeout := 2,
              script := ["OK\r\n", "\r\nERROR\r\n", dhcpRespMask24], events := [] }) =
          Except.ok (some
            { timeout := 2, script := [],
              events := [] ++ [SEv.wr "AT\r", SEv.rd 10 2,
                SEv.wr "AT^NDISDUP=1,1,\"h2g2\"\r", SEv.rd 30 2,
                SEv.wr "AT^DHCP?\r", SEv.rd 100 2] }, recs) ∧
        ((recs = [] ∧ (reSearch "OK" dhcpRespMask24 = false ∨
            DhcpParse dhcpRespMask24 = Except.ok none)) ∨
         (∃ l : Lease, reSearch "OK" dhcpRespMask24 = true ∧
            DhcpParse dhcpRespMask24 = Except.ok (some l) ∧
            recs = [Rec.updAddr l, Rec.setGw l.Gateway, Rec.addDns l.DnsPrimary]))) := by
  have hval : DhcpParse dhcpRespMask24 = Except.ok (some leaseMask24) := rfl
  refine ⟨by decide, by decide, by decide, ?_⟩
  exact connectFlow_dhcp_unconditional 2 [] "OK\r\n" "\r\nERROR\r\n" dhcpRespMask24
    (by decide) (by decide) (by decide)
    (fun e h => Except.noConfusion (hval.symm.trans h))

/-- Counterexample to C4 as stated: the connect response contains `ERROR`
and no `OK` — the connect exchange failed — yet the DHCP query is sent (the
`AT^DHCP?` write is in the event log) and all three reconciler mutation
calls are made. -/
theorem connectFlow_mutation_despite_connect_fail :
    reSearch "OK" "\r\nERROR\r\n" = false ∧
      ConnectFlow (some
          { timeout := 2,
            script := ["OK\r\n", "\r\nERROR\r\n", dhcpRespMask24], events := [] }) =
        Except.ok (some
          { timeout := 2, script := [],
            events := [SEv.wr "AT\r", SEv.rd 10 2,
              SEv.wr "AT^NDISDUP=1,1,\"h2g2\"\r", SEv.rd 30 2,
              SEv.wr "AT^DHCP?\r", SEv.rd 100 2] },
          [Rec.updAddr leaseMask24, Rec.setGw "10.0.0.2", Rec.addDns "8.8.8.8"]) :=
  ⟨rfl, rfl⟩

/-- Claim C5 (amended): whenever the main program terminates normally — no
exchange or flow raised — its exit status is 0, whatever the arguments, the
serial sessions and the OS state. (Some failures do raise and abort instead;
see the counterexample.) -/
theorem main_normal_exit_zero (a : Args) (serC serD : Option Serial) (w : World)
    (n : Nat) (recs : List Rec)
    (h : Main a serC serD w = Except.ok (n, recs)) : n = 0 := by
  unfold Main at h
  split at h
  · exact absurd h (by simp)
  · split at h
    · exact absurd h (by simp)
    · simp only [Except.ok.injEq, Prod.mk.injEq] at h
      exact h.1.symm

/-- Witness for C5: a run with no arguments terminates normally and its
exit status is 0. -/
theorem main_normal_exit_zero_witness :
    Main { connect := false, disconnect := false } none none
        { ifconfigOut := none, gw := none } = Except.ok (0, []) ∧ (0 : Nat) = 0 :=
  ⟨rfl, main_normal_exit_zero { connect := false, disconnect := false } none none
    { ifconfigOut := none, gw := none } 0 [] rfl⟩

/-- Counterexample to C5 as stated: when the serial open fails in the
disconnect flow, `ModemHangup(None)` evaluates `None.write` and the process
aborts with `AttributeError` — it never reaches `exit(0)`. -/
theorem main_disconnect_open_failure_crash :
    Main { connect := false, disconnect := true } none none
        { ifconfigOut := some "inet 10.0.0.1", gw := none } =
      Except.error PyErr.attributeError := rfl

/-! ### Claim theorems: the lease parser -/

/-- Claim C1 (amended): `DhcpParse` never returns a partially filled lease —
its normal results are `None` or a `Lease` with every field present — and it
is total on structurally malformed input: text without the colon separator,
or with fewer than 8 comma-separated fields, always yields `None` without
raising. (It can raise on field-level malformation such as non-hex fields;
see the counterexample.) -/
theorem dhcpParse_structural_none (s : String) :
    (splitFirst ':' s.toList = none → DhcpParse s = Except.ok none) ∧
    (∀ pre rest, splitFirst ':' s.toList = some (pre, rest) →
      (splitAll ',' rest).length < 8 → DhcpParse s = Except.ok none) := by
  constructor
  · intro h
    unfold DhcpParse
    rw [h]
  · intro pre rest h hlen
    have hred : DhcpParse s = dhcpFields rest := by
      unfold DhcpParse
      rw [h]
    rw [hred]
    unfold dhcpFields
    rcases hfa : splitAll ',' rest with
        _ | ⟨g0, _ | ⟨g1, _ | ⟨g2, _ | ⟨g3, _ | ⟨g4, _ | ⟨g5, _ | ⟨g6, _ | ⟨g7, gs⟩⟩⟩⟩⟩⟩⟩⟩ <;>
      first
        | rfl
        | (rw [hfa] at hlen; simp at hlen; omega)

/-- Witness for C1: input with no colon separator parses to `None`. -/
theorem dhcpParse_structural_none_witness :
    splitFirst ':' ("garbage" : String).toList = none ∧
      DhcpParse "garbage" = Except.ok none :=
  ⟨rfl, (dhcpParse_structural_none "garbage").1 rfl⟩

/-- Counterexample to C1 as stated: a non-hexadecimal address field makes
`int(field, base=16)` raise `ValueError`, so the parser throws on this
malformed input instead of returning "no lease". -/
theorem dhcpParse_raises_on_nonhex :
    DhcpParse "tag:g,0,0,0,0,0,0,0" = Except.error PyErr.valueError := rfl

/-- Claim C6: `NetmaskBits` is the total population count of the set bits of
the four octets of the decoded netmask — for every well-formed input it
equals the sum of the octets' bit counts — and concretely the contiguous
mask `255.255.255.0` gives 24 while the non-contiguous `255.0.255.0` gives
16 (the sum of set bits, not any contiguous-prefix length, which would be
8). -/
theorem netmaskBits_popcount :
    (∀ (s : String) (pre rest f0 f1 f2 f3 f4 f5 f6 f7 : List Char)
        (more : List (List Char)) (w0 w1 w2 w3 w4 w5 : Int)
        (tx0 : List Char) (txr : List (List Char)),
      splitFirst ':' s.toList = some (pre, rest) →
      splitAll ',' rest = f0 :: f1 :: f2 :: f3 :: f4 :: f5 :: f6 :: f7 :: more →
      pyIntHexCore f0 = Except.ok w0 → 0 ≤ w0 ∧ w0 ≤ 4294967295 →
      pyIntHexCore f1 = Except.ok w1 → 0 ≤ w1 ∧ w1 ≤ 4294967295 →
      pyIntHexCore f2 = Except.ok w2 → 0 ≤ w2 ∧ w2 ≤ 4294967295 →
      pyIntHexCore f3 = Except.ok w3 → 0 ≤ w3 ∧ w3 ≤ 4294967295 →
      pyIntHexCore f4 = Except.ok w4 → 0 ≤ w4 ∧ w4 ≤ 4294967295 →
      pyIntHexCore f5 = Except.ok w5 → 0 ≤ w5 ∧ w5 ≤ 4294967295 →
      pySplitWs f7 = tx0 :: txr →
      ∃ l : Lease, DhcpParse s = Except.ok (some l) ∧
        l.NetmaskBits = popc (w1.toNat % 256) + popc (w1.toNat / 256 % 256) +
          popc (w1.toNat / 65536 % 256) + popc (w1.toNat / 16777216 % 256)) ∧
    (∃ l : Lease, DhcpParse dhcpRespMask24 = Except.ok (some l) ∧
      l.Netmask = "255.255.255.0" ∧ l.NetmaskBits = 24) ∧
    (∃ l : Lease, DhcpParse dhcpRespMaskNC = Except.ok (some l) ∧
      l.Netmask = "255.0.255.0" ∧ l.NetmaskBits = 16) := by
  refine ⟨?_, ⟨leaseMask24, rfl, rfl, rfl⟩, ⟨leaseMaskNC, rfl, rfl, rfl⟩⟩
  intro s pre rest f0 f1 f2 f3 f4 f5 f6 f7 more w0 w1 w2 w3 w4 w5 tx0 txr
    hsp hfa h0 r0 h1 r1 h2 r2 h3 r3 h4 r4 h5 r5 htx
  refine ⟨_, DhcpParse_ok s pre rest f0 f1 f2 f3 f4 f5 f6 f7 more
    w0 w1 w2 w3 w4 w5 tx0 txr hsp hfa h0 r0 h1 r1 h2 r2 h3 r3 h4 r4 h5 r5 htx, ?_⟩
  show popc (w1.toNat % 256) + (popc (w1.toNat / 256 % 256) +
      (popc (w1.toNat / 65536 % 256) + (popc (w1.toNat / 16777216 % 256) + 0))) =
    popc (w1.toNat % 256) + popc (w1.toNat / 256 % 256) +
      popc (w1.toNat / 65536 % 256) + popc (w1.toNat / 16777216 % 256)
  omega

/-- Witness for C6: the general bit-count law applied to the concrete
response whose netmask word is `00FF00FF` (value 16711935). -/
theorem netmaskBits_popcount_witness :
    ∃ l : Lease, DhcpParse dhcpRespMaskNC = Except.ok (some l) ∧
      l.NetmaskBits = popc ((16711935 : Int).toNat % 256) +
        popc ((16711935 : Int).toNat / 256 % 256) +
        popc ((16711935 : Int).toNat / 65536 % 256) +
        popc ((16711935 : Int).toNat / 16777216 % 256) :=
  netmaskBits_popcount.1 dhcpRespMaskNC
    ("\r\n^DHCP".toList)
    ((" 0100000A,00FF00FF,0200000A,0200000A,08080808,04040808,7240000,7240000\r\n\r\nOK\r\n" : String).toList)
    (" 0100000A".toList) ("00FF00FF".toList) ("0200000A".toList) ("0200000A".toList)
    ("08080808".toList) ("04040808".toList) ("7240000".toList)
    ("7240000\r\n\r\nOK\r\n".toList) []
    16777226 16711935 33554442 33554442 134744072 67373064
    ("7240000".toList) ["OK".toList]
    rfl rfl
    rfl ⟨by decide, by decide⟩
    rfl ⟨by decide, by decide⟩
    rfl ⟨by decide, by decide⟩
    rfl ⟨by decide, by decide⟩
    rfl ⟨by decide, by decide⟩
    rfl ⟨by decide, by decide⟩
    rfl

/-- Claim C7: round-trip — every IPv4 address, encoded as the little-endian
32-bit hex word the wire format uses, decodes through the parser's
`int(·, 16)` / `pack("<L")` / `inet_ntoa` pipeline back to the original
dotted-decimal octets — and in a successful parse the first six fields are
decoded by exactly that pipeline, in the fixed order address, netmask,
gateway, DHCP server, primary DNS, secondary DNS. -/
theorem ip_le_word_roundtrip :
    (∀ o0 o1 o2 o3 : Nat, o0 < 256 → o1 < 256 → o2 < 256 → o3 < 256 →
      ipFieldDecode (ipEncodeLE o0 o1 o2 o3) = Except.ok (dottedQuad o0 o1 o2 o3)) ∧
    (∀ (s : String) (pre rest f0 f1 f2 f3 f4 f5 f6 f7 : List Char)
        (more : List (List Char)) (w0 w1 w2 w3 w4 w5 : Int)
        (tx0 : List Char) (txr : List (List Char)),
      splitFirst ':' s.toList = some (pre, rest) →
      splitAll ',' rest = f0 :: f1 :: f2 :: f3 :: f4 :: f5 :: f6 :: f7 :: more →
      pyIntHexCore f0 = Except.ok w0 → 0 ≤ w0 ∧ w0 ≤ 4294967295 →
      pyIntHexCore f1 = Except.ok w1 → 0 ≤ w1 ∧ w1 ≤ 4294967295 →
      pyIntHexCore f2 = Except.ok w2 → 0 ≤ w2 ∧ w2 ≤ 4294967295 →
      pyIntHexCore f3 = Except.ok w3 → 0 ≤ w3 ∧ w3 ≤ 4294967295 →
      pyIntHexCore f4 = Except.ok w4 → 0 ≤ w4 ∧ w4 ≤ 4294967295 →
      pyIntHexCore f5 = Except.ok w5 → 0 ≤ w5 ∧ w5 ≤ 4294967295 →
      pySplitWs f7 = tx0 :: txr →
      ∃ l : Lease, DhcpParse s = Except.ok (some l) ∧
        ipFieldDecode f0 = Except.ok l.IpAddr.toList ∧
        ipFieldDecode f1 = Except.ok l.Netmask.toList ∧
        ipFieldDecode f2 = Except.ok l.Gateway.toList ∧
        ipFieldDecode f3 = Except.ok l.DhcpServer.toList ∧
        ipFieldDecode f4 = Except.ok l.DnsPrimary.toList ∧
        ipFieldDecode f5 = Except.ok l.DnsSecondary.toList) := by
  constructor
  · intro o0 o1 o2 o3 h0 h1 h2 h3
    have e0 : (o0 + 256 * o1 + 65536 * o2 + 16777216 * o3) % 256 = o0 := by omega
    have e1 : (o0 + 256 * o1 + 65536 * o2 + 16777216 * o3) / 256 % 256 = o1 := by
      omega
    have e2 : (o0 + 256 * o1 + 65536 * o2 + 16777216 * o3) / 65536 % 256 = o2 := by
      omega
    have e3 : (o0 + 256 * o1 + 65536 * o2 + 16777216 * o3) / 16777216 % 256 = o3 := by
      omega
    unfold ipFieldDecode ipEncodeLE
    simp only [pyIntHexCore_padHex]
    unfold packInetNtoa
    rw [show Int.ofNat (o0 + 256 * o1 + 65536 * o2 + 16777216 * o3) =
        ((o0 + 256 * o1 + 65536 * o2 + 16777216 * o3 : Nat) : Int) from rfl]
    rw [if_neg (by omega)]
    unfold ntoaWord
    rw [Int.toNat_ofNat, e0, e1, e2, e3]
  · intro s pre rest f0 f1 f2 f3 f4 f5 f6 f7 more w0 w1 w2 w3 w4 w5 tx0 txr
      hsp hfa h0 r0 h1 r1 h2 r2 h3 r3 h4 r4 h5 r5 htx
    exact ⟨_, DhcpParse_ok s pre rest f0 f1 f2 f3 f4 f5 f6 f7 more
      w0 w1 w2 w3 w4 w5 tx0 txr hsp hfa h0 r0 h1 r1 h2 r2 h3 r3 h4 r4 h5 r5 htx,
      ipFieldDecode_ok f0 w0 h0 r0.1 r0.2,
      ipFieldDecode_ok f1 w1 h1 r1.1 r1.2,
      ipFieldDecode_ok f2 w2 h2 r2.1 r2.2,
      ipFieldDecode_ok f3 w3 h3 r3.1 r3.2,
      ipFieldDecode_ok f4 w4 h4 r4.1 r4.2,
      ipFieldDecode_ok f5 w5 h5 r5.1 r5.2⟩

/-- Witness for C7: the address `10.0.0.1`, encoded as the little-endian
word `0100000A`, decodes back to `10.0.0.1`. -/
theorem ip_le_word_roundtrip_witness :
    (10 : Nat) < 256 ∧ (0 : Nat) < 256 ∧ (1 : Nat) < 256 ∧
      ipFieldDecode (ipEncodeLE 10 0 0 1) = Except.ok (dottedQuad 10 0 0 1) :=
  ⟨by decide, by decide, by decide,
   ip_le_word_roundtrip.1 10 0 0 1 (by decide) (by decide) (by decide) (by decide)⟩

end Modem
